import Mathlib

/-!
Shallow embedding of `ultralytics/yolo/engine/validator.py` (class
`BaseValidator`), the orchestration loop of the YOLOv8-DirectML evaluation
engine, together with theorems settling the specification claims about it.

Conventions of the embedding:
* external collaborators (trainer, model backend, dataloader, metrics
  accumulator hooks) are parameters of the definitions;
* Python numbers are modelled as `ℚ` (stage timers, loss values, stats);
* fallible Python code is modelled with `Except String`;
* a Python function whose body is `pass` returns `none` (Python `None`);
* side effects that the claims talk about (hook invocations, file writes)
  are recorded as explicit event traces.
-/

namespace YoloValidator

/-- A stats map, Python `dict` from metric name to scalar, kept as an ordered
association list the way Python `dict` preserves insertion order. -/
abbrev Stats := List (String × ℚ)

/- ### Mode resolution (validator.py lines 41-57) -/

/-- Result of the two-mode dispatch at the top of `BaseValidator.__call__`:
either the embedded (training) path with the trainer handle, or the
standalone path with the model handle. -/
inductive Mode (T M : Type) where
  | embedded (t : T)
  | standalone (m : M)
deriving DecidableEq

/-- Embeds lines 46-57 of `BaseValidator.__call__`:
`self.training = trainer is not None`; when a trainer is present the embedded
branch runs (the docstring notes "trainer gets priority"); otherwise
`assert model is not None, "Either trainer or model is needed for validation"`
and the standalone branch runs. The failed assertion is the precondition
error. -/
def resolveMode {T M : Type} (trainer : Option T) (model : Option M) :
    Except String (Mode T M) :=
  match trainer with
  | some t => .ok (Mode.embedded t)
  | none =>
    match model with
    | some m => .ok (Mode.standalone m)
    | none => .error "Either trainer or model is needed for validation"

/- ### Standalone batch-size resolution (validator.py lines 62-71) -/

/-- Embeds lines 62-69: after wrapping the handle in `AutoBackend`, with
capability flags `pt` (native), `jit` (scripted), `engine` (compiled engine):
`if engine: self.args.batch_size = model.batch_size` and otherwise
`if not pt and not jit: self.args.batch_size = 1`. -/
def resolveBatchSize (engine pt jit : Bool) (configured backend_batch : Nat) :
    Nat :=
  if engine then backend_batch
  else if !pt && !jit then 1 else configured

/- ### Dataset split resolution (validator.py lines 73-78) -/

/-- Embeds the argument of `self.get_dataloader` on line 78:
`data.get("val") or data.set("test")`. The dataset descriptor returned by
`check_dataset` / `check_dataset_yaml` is a `dict`, and `dict` has no `set`
method, so whenever the left operand of `or` is falsy (key absent, or an
empty-string path) the attribute lookup `data.set` raises `AttributeError`. -/
def valSplitSource (data : List (String × String)) : Except String String :=
  match data.lookup "val" with
  | some p =>
    if p = "" then .error "AttributeError: dict object has no attribute set"
    else .ok p
  | none => .error "AttributeError: dict object has no attribute set"

/-- Modelled from the spec: the intended split selection, "a dataloader is
constructed over its validation (falling back to test) split". The code's
fallback operand is broken (see `valSplitSource`); this definition follows
the spec's words for comparison. -/
def valSplit_spec (data : List (String × String)) : Option String :=
  match data.lookup "val" with
  | some p => some p
  | none => data.lookup "test"

/- ### Per-batch pipeline and batch loop (validator.py lines 80-113) -/

/-- Events recorded by the orchestrator, one per hook invocation of the
batch loop and the aggregation phase. `B` is the batch type, `I` the input
tensor type (`batch["img"]`), `P` the prediction type. -/
inductive Ev (B I P : Type) where
  | initMetricsEv
  | preprocessEv (inp out : B)
  | inferenceEv (inp : I) (out : P)
  | lossAccumEv (i : Nat)
  | postprocessEv (inp out : P)
  | updateMetricsEv (pred : P) (batch : B)
  | plotValSamplesEv (i : Nat)
  | plotPredictionsEv (i : Nat)
  | getStatsEv
  | checkStatsEv
  | printResultsEv
deriving DecidableEq

/-- Recognizer for `update_metrics` invocations, used to count them. -/
def Ev.isUpdateMetrics {B I P : Type} : Ev B I P → Bool
  | .updateMetricsEv _ _ => true
  | _ => false

/-- The pluggable per-batch functions of the pipeline: `batch["img"]`
projection, the `preprocess` hook, the resolved model callable and the
`postprocess` hook (the latter two default to identity in the base class). -/
structure Hooks (B I P : Type) where
  img : B → I
  preprocess : B → B
  modelCall : I → P
  postprocess : P → P

/-- Events of one iteration of the batch loop, lines 92-113: preprocess the
batch, run inference on the preprocessed batch's `img` input, accumulate
loss when training, postprocess the raw predictions, call `update_metrics`
on (postprocessed predictions, preprocessed batch), and plot when plotting
is enabled and the batch index is below 3. -/
def batchEvents {B I P : Type} (h : Hooks B I P) (training plots : Bool)
    (i : Nat) (b : B) : List (Ev B I P) :=
  let b2 := h.preprocess b
  let preds := h.modelCall (h.img b2)
  let preds2 := h.postprocess preds
  [Ev.preprocessEv b b2, Ev.inferenceEv (h.img b2) preds]
    ++ (if training then [Ev.lossAccumEv i] else [])
    ++ [Ev.postprocessEv preds preds2, Ev.updateMetricsEv preds2 b2]
    ++ (if plots && decide (i < 3) then
          [Ev.plotValSamplesEv i, Ev.plotPredictionsEv i]
        else [])

/-- Elementwise tensor addition `self.loss += ...` on the per-term loss
vector. -/
def addLoss (a b : List ℚ) : List ℚ := List.zipWith (· + ·) a b

/-- Mutable state threaded through the batch loop: the running loss vector
(embedded mode), the last batch index `self.batch_i`, and the recorded
event trace. -/
structure LoopState (B I P : Type) where
  loss : List ℚ
  batch_i : Option Nat
  events : List (Ev B I P)

/-- One iteration of the `for batch_i, batch in enumerate(bar)` loop.
`criterion` is the trainer's loss function; its per-term vector (`[1]` of
the returned pair in the source) is added into the running loss only when
training. -/
def loopStep {B I P : Type} (h : Hooks B I P) (criterion : P → B → List ℚ)
    (training plots : Bool) (s : LoopState B I P) (ib : Nat × B) :
    LoopState B I P :=
  let b2 := h.preprocess ib.2
  let preds := h.modelCall (h.img b2)
  { loss := if training then addLoss s.loss (criterion preds b2) else s.loss
    batch_i := some ib.1
    events := s.events ++ batchEvents h training plots ib.1 ib.2 }

/-- The whole batch loop over the dataloader's batches, in order. -/
def runLoop {B I P : Type} (h : Hooks B I P) (criterion : P → B → List ℚ)
    (training plots : Bool) (bs : List B) (loss0 : List ℚ) :
    LoopState B I P :=
  bs.enum.foldl (loopStep h criterion training plots)
    { loss := loss0, batch_i := none, events := [] }

/- ### Aggregation and reporting (validator.py lines 115-130) -/

/-- Embeds line 118, `self.speed = tuple(x.t / len(self.dataloader.dataset)
* 1E3 for x in dt)`: each stage accumulator's total elapsed seconds divided
by the dataset's sample count, scaled to milliseconds. Python float division
by a zero sample count raises `ZeroDivisionError`, modelled as the error
case. -/
def computeSpeed (dtTotals : List ℚ) (nSamples : Nat) :
    Except String (List ℚ) :=
  if nSamples = 0 then .error "ZeroDivisionError: float division by zero"
  else .ok (dtTotals.map (fun t => t / (nSamples : ℚ) * 1000))

/-- Modelled from the spec: `trainer.label_loss_items` (defined on the
trainer collaborator, not under `src/`) labels each per-term loss value with
its term name under the given prefix, producing entries
`"<prefix>/<term>": value`. -/
def label_loss_items (keys : List String) (lossItems : List ℚ)
    (pre : String) : Stats :=
  (keys.zip lossItems).map (fun kv => (pre ++ "/" ++ kv.1, kv.2))

/-- Python `dict` merge `{**a, **b}`: keys of `a` in order with values
overridden by `b` where present, followed by the keys of `b` absent from
`a`. -/
def dictMerge (a b : Stats) : Stats :=
  a.map (fun kv => (kv.1, ((b.lookup kv.1).getD kv.2)))
    ++ b.filter (fun kv => (a.lookup kv.1).isNone)

/-- Embeds line 121, the embedded-mode return value:
`{**stats, **trainer.label_loss_items(self.loss.cpu() / len(self.dataloader),
prefix="val")}` — the stats map merged with the accumulated loss vector
divided by the number of batches, labelled under the `val` prefix. -/
def reportEmbedded (stats : Stats) (loss : List ℚ) (nBatches : Nat)
    (keys : List String) : Stats :=
  dictMerge stats
    (label_loss_items keys (loss.map (fun x => x / (nBatches : ℚ))) "val")

/-- Side effects of the standalone report phase. -/
inductive RepEv where
  | writeJson (path : String)
  | evalJsonCall
deriving DecidableEq

/-- Embeds lines 125-130, the standalone-mode report:
`if self.args.save_json and self.jdict:` write the accumulated prediction
records to `<save_dir>/predictions.json` and replace `stats` with
`self.eval_json(stats)`; then return `stats`. The `eval_json` hook, like any
Python function, may return `None`, hence the `Option Stats` result. -/
def standaloneReport (save_json : Bool) (jdict : List String)
    (evalJson : Stats → Option Stats) (save_dir : String) (stats : Stats) :
    List RepEv × Option Stats :=
  if save_json && !jdict.isEmpty then
    ([RepEv.writeJson (save_dir ++ "/predictions.json"), RepEv.evalJsonCall],
      evalJson stats)
  else ([], some stats)

/-- Embeds line 173-174, the base-class `eval_json` hook: its body is
`pass`, so it returns Python `None` for every stats map. -/
def eval_json_default (stats : Stats) : Option Stats :=
  none

/-- The dataloader collaborator: the batches it yields in order, and the
sample count `len(self.dataloader.dataset)` of its underlying dataset. -/
structure Loader (B : Type) where
  batches : List B
  datasetLen : Nat

/-- The whole of `BaseValidator.__call__` after mode resolution: run
`init_metrics`, the batch loop, then `get_stats`, `check_stats`,
`print_results`, the speed computation (which aborts the call on a zero
sample count), and the mode-specific report. Returns the recorded event
trace, the report-phase side effects, and the call's result. -/
def validatorCall {B I P : Type} (h : Hooks B I P)
    (criterion : P → B → List ℚ) (training plots : Bool) (loader : Loader B)
    (loss0 : List ℚ) (dtTotals : List ℚ) (stats : Stats)
    (keys : List String) (save_json : Bool) (jdict : List String)
    (evalJson : Stats → Option Stats) (save_dir : String) :
    List (Ev B I P) × List RepEv × Except String (Option Stats) :=
  let st := runLoop h criterion training plots loader.batches loss0
  let evs := Ev.initMetricsEv ::
    (st.events ++ [Ev.getStatsEv, Ev.checkStatsEv, Ev.printResultsEv])
  match computeSpeed dtTotals loader.datasetLen with
  | .error e => (evs, [], .error e)
  | .ok _ =>
    if training then
      (evs, [],
        .ok (some (reportEmbedded stats st.loss loader.batches.length keys)))
    else
      let rep := standaloneReport save_json jdict evalJson save_dir stats
      (evs, rep.1, .ok rep.2)

/- ### Scoped inference context (decorator on line 40) -/

/-- Events of the scoped inference context: entering the context (gradient
bookkeeping suspended), a numbered pipeline stage running, leaving the
context (bookkeeping restored). -/
inductive GuardEv where
  | enterCtx
  | exitCtx
  | stageEv (i : Nat)
deriving DecidableEq

/-- Modelled from the spec: the body of a call decorated with
`smart_inference_mode` (defined in `ultralytics/yolo/utils/torch_utils.py`,
not under `src/`) runs a sequence of stages, of which one may raise; the
stages after the raising one do not run. `raiseAt` is the index of the
raising stage, if any. Returns the stage events and whether the body
raised. -/
def bodySteps (nStages : Nat) (raiseAt : Option Nat) :
    List GuardEv × Bool :=
  match raiseAt with
  | none => ((List.range nStages).map GuardEv.stageEv, false)
  | some k =>
    if k < nStages then ((List.range (k + 1)).map GuardEv.stageEv, true)
    else ((List.range nStages).map GuardEv.stageEv, false)

/-- Modelled from the spec: `smart_inference_mode` wraps the call in a
scoped inference context that is entered before the body and released
unconditionally on every exit path, including when the body raises
(context-manager semantics of torch's inference mode). -/
def scopedInferenceRun (nStages : Nat) (raiseAt : Option Nat) :
    List GuardEv × Bool :=
  let b := bodySteps nStages raiseAt
  (GuardEv.enterCtx :: (b.1 ++ [GuardEv.exitCtx]), b.2)

/-- Net change a trace of context events makes to the depth of the
gradient-suspension context stack. -/
def depthDelta : GuardEv → Int
  | GuardEv.enterCtx => 1
  | GuardEv.exitCtx => -1
  | GuardEv.stageEv _ => 0

/-- Concrete hooks used to evaluate the loop on concrete inputs. -/
def natHooks : Hooks Nat Nat Nat :=
  { img := fun b => b
    preprocess := fun b => b + 1
    modelCall := fun i => i * 2
    postprocess := fun p => p + 3 }

/-- Concrete loss criterion used to evaluate the loop on concrete inputs. -/
def natCriterion (p : Nat) (b : Nat) : List ℚ := [(p : ℚ) + (b : ℚ)]

end YoloValidator

namespace YoloValidator

/- ### Helper lemmas on the batch loop -/

/-- Helper: events accumulated by folding the loop step from any initial
state are the initial events followed by one `batchEvents` segment per
enumerated batch, in order. -/
theorem foldl_loopStep_events {B I P : Type} (h : Hooks B I P)
    (criterion : P → B → List ℚ) (training plots : Bool)
    (l : List (Nat × B)) (s : LoopState B I P) :
    (l.foldl (loopStep h criterion training plots) s).events =
      s.events ++ l.flatMap (fun ib => batchEvents h training plots ib.1 ib.2) := by
  induction l generalizing s with
  | nil => simp
  | cons ib t ih =>
    simp only [List.foldl_cons, List.flatMap_cons, ih, loopStep,
      List.append_assoc]

/-- Helper: each per-batch event segment contains exactly one
`update_metrics` invocation. -/
theorem batchEvents_one_update {B I P : Type} (h : Hooks B I P)
    (training plots : Bool) (i : Nat) (b : B) :
    (batchEvents h training plots i b).countP Ev.isUpdateMetrics = 1 := by
  cases training <;> cases plots <;>
    simp [batchEvents, List.countP_append, List.countP_cons,
      Ev.isUpdateMetrics, apply_ite (List.countP Ev.isUpdateMetrics)]

/-- Helper: a run of per-batch segments contains one `update_metrics`
invocation per segment. -/
theorem countP_flatMap_batchEvents {B I P : Type} (h : Hooks B I P)
    (training plots : Bool) (l : List (Nat × B)) :
    ((l.flatMap (fun ib => batchEvents h training plots ib.1 ib.2)).countP
        Ev.isUpdateMetrics) = l.length := by
  induction l with
  | nil => simp
  | cons ib t ih =>
    simp [List.countP_append, batchEvents_one_update, ih, Nat.add_comm]

/- ### Theorems for C1 and C2 -/

/-- C1 counterexample: supplying both a trainer handle and a model handle
does not fail with a configuration error; the embedded path executes with
the trainer taking priority. -/
theorem resolveMode_both_handles_no_error :
    resolveMode (T := Nat) (M := Nat) (some 0) (some 1) =
      Except.ok (Mode.embedded 0) := rfl

/-- C1 (amended): a call with neither handle fails with the precondition
(assertion) error; a call with a trainer handle always takes the embedded
path, regardless of the model handle; a call with only a model handle takes
the standalone path. In every successful call exactly one of the two paths
executes. -/
theorem resolveMode_dispatch {T M : Type} :
    resolveMode (T := T) (M := M) none none =
        Except.error "Either trainer or model is needed for validation"
    ∧ (∀ (t : T) (mo : Option M),
        resolveMode (some t) mo = Except.ok (Mode.embedded t))
    ∧ (∀ m : M,
        resolveMode (T := T) none (some m) =
          Except.ok (Mode.standalone m)) := by
  refine ⟨rfl, fun t mo => rfl, fun m => rfl⟩

/-- C2: in standalone mode, when the backend is a compiled engine the batch
size becomes the backend's fixed batch size; otherwise the configured batch
size is overwritten to 1 exactly when the backend reports neither native
(`pt`) nor scripted (`jit`) capability. -/
theorem batch_size_resolution (engine pt jit : Bool)
    (configured backend_batch : Nat) (hcfg : configured ≠ 1) :
    (engine = true →
      resolveBatchSize engine pt jit configured backend_batch = backend_batch)
    ∧ (engine = false →
      (resolveBatchSize engine pt jit configured backend_batch = 1 ↔
        pt = false ∧ jit = false)) := by
  constructor
  · intro he
    simp [resolveBatchSize, he]
  · intro he
    cases pt <;> cases jit <;>
      simp [resolveBatchSize, he, hcfg]

/-- C3: on a non-empty dataloader the batch loop records exactly one
pipeline segment per yielded batch, in dataloader order; within each segment
the stages are preprocess, then inference on the preprocessed batch's input,
then loss accumulation only when embedded, then postprocess of the raw
predictions, then `update_metrics` on the postprocessed predictions and the
preprocessed batch; and `update_metrics` is invoked exactly as many times as
there are batches. -/
theorem batch_loop_pipeline {B I P : Type} (h : Hooks B I P)
    (criterion : P → B → List ℚ) (training plots : Bool) (bs : List B)
    (loss0 : List ℚ) (hne : bs ≠ []) :
    (runLoop h criterion training plots bs loss0).events =
        bs.enum.flatMap (fun ib =>
          [Ev.preprocessEv ib.2 (h.preprocess ib.2),
            Ev.inferenceEv (h.img (h.preprocess ib.2))
              (h.modelCall (h.img (h.preprocess ib.2)))]
          ++ (if training then [Ev.lossAccumEv ib.1] else [])
          ++ [Ev.postprocessEv (h.modelCall (h.img (h.preprocess ib.2)))
                (h.postprocess (h.modelCall (h.img (h.preprocess ib.2)))),
              Ev.updateMetricsEv
                (h.postprocess (h.modelCall (h.img (h.preprocess ib.2))))
                (h.preprocess ib.2)]
          ++ (if plots && decide (ib.1 < 3) then
                [Ev.plotValSamplesEv ib.1, Ev.plotPredictionsEv ib.1]
              else []))
    ∧ (runLoop h criterion training plots bs loss0).events.countP
        Ev.isUpdateMetrics = bs.length := by
  constructor
  · rw [runLoop, foldl_loopStep_events]
    simp [batchEvents]
  · rw [runLoop, foldl_loopStep_events]
    simp [countP_flatMap_batchEvents]

/-- C3 witness: the batch loop evaluated on two concrete batches with
concrete hooks invokes `update_metrics` exactly twice. -/
theorem batch_loop_pipeline_witness :
    ([10, 20] : List Nat) ≠ []
    ∧ (runLoop natHooks natCriterion true true [10, 20] [0]).events.countP
        Ev.isUpdateMetrics = 2 :=
  ⟨by decide,
    (batch_loop_pipeline natHooks natCriterion true true [10, 20] [0]
      (by decide)).2⟩

/-- C2 witness: concrete evaluation of the batch-size resolution with a
configured batch size of 16 and a backend batch size of 8. -/
theorem batch_size_resolution_witness :
    ((16 : Nat) ≠ 1)
    ∧ resolveBatchSize true true false 16 8 = 8
    ∧ resolveBatchSize false false false 16 8 = 1
    ∧ resolveBatchSize false true false 16 8 ≠ 1 := by
  have h := batch_size_resolution true true false 16 8 (by decide)
  have h2 := batch_size_resolution false false false 16 8 (by decide)
  have h3 := batch_size_resolution false true false 16 8 (by decide)
  refine ⟨by decide, h.1 rfl, (h2.2 rfl).mpr ⟨rfl, rfl⟩, ?_⟩
  intro hc
  exact absurd ((h3.2 rfl).mp hc).1 (by decide)

/- ### Theorems for C4-C10 -/

/-- Helper: mapping the merge-override over a list whose keys are absent
from `b` is the identity. -/
theorem map_getD_of_lookup_none (b : Stats) :
    ∀ a : Stats, (∀ kv ∈ a, b.lookup kv.1 = none) →
      a.map (fun kv => (kv.1, ((b.lookup kv.1).getD kv.2))) = a := by
  intro a
  induction a with
  | nil => intro _; rfl
  | cons kv t ih =>
    intro h1
    simp only [List.map_cons]
    rw [h1 kv (by simp)]
    rw [ih (fun x hx => h1 x (by simp [hx]))]
    simp

/-- Helper: a Python dict merge of maps with disjoint key sets is plain
concatenation. -/
theorem dictMerge_of_disjoint (a b : Stats)
    (h1 : ∀ kv ∈ a, b.lookup kv.1 = none)
    (h2 : ∀ kv ∈ b, a.lookup kv.1 = none) :
    dictMerge a b = a ++ b := by
  rw [dictMerge, map_getD_of_lookup_none b a h1]
  congr 1
  exact List.filter_eq_self.mpr (fun kv hkv => by simp [h2 kv hkv])

/-- C4: when the accumulator stats and the labelled loss terms have disjoint
keys, the embedded-mode return value is the stats map followed by the
`val`-prefixed loss terms with the loss vector divided by the batch count;
and every entry of a standalone-mode return value comes from the stats map
itself or from `eval_json`'s output — the standalone path appends no loss
terms. -/
theorem embedded_and_standalone_report (stats : Stats) (loss : List ℚ)
    (nB : Nat) (keys : List String)
    (h1 : ∀ kv ∈ stats,
      (label_loss_items keys (loss.map (fun x => x / (nB : ℚ))) "val").lookup
        kv.1 = none)
    (h2 : ∀ kv ∈ label_loss_items keys (loss.map (fun x => x / (nB : ℚ)))
        "val", stats.lookup kv.1 = none)
    (sj : Bool) (jd : List String) (ej : Stats → Option Stats) (sd : String)
    (r : Stats) (hr : (standaloneReport sj jd ej sd stats).2 = some r) :
    reportEmbedded stats loss nB keys =
      stats ++ label_loss_items keys (loss.map (fun x => x / (nB : ℚ))) "val"
    ∧ ∀ kv ∈ r, kv ∈ stats ∨ ∃ s, ej stats = some s ∧ kv ∈ s := by
  constructor
  · rw [reportEmbedded, dictMerge_of_disjoint _ _ h1 h2]
  · intro kv hkv
    by_cases hc : sj && !jd.isEmpty
    · right
      have hs : (standaloneReport sj jd ej sd stats).2 = ej stats := by
        simp [standaloneReport, hc]
      rw [hs] at hr
      exact ⟨r, hr, hkv⟩
    · left
      have hs : (standaloneReport sj jd ej sd stats).2 = some stats := by
        simp [standaloneReport, hc]
      rw [hs] at hr
      injection hr with h
      rw [← h] at hkv
      exact hkv

/-- C4 witness: concrete embedded report with one metric, one loss term and
two batches. -/
theorem embedded_report_witness :
    reportEmbedded [("metrics/mAP", (1 : ℚ)/2)] [4] 2 ["box"] =
      [("metrics/mAP", (1 : ℚ)/2), ("val/box", 2)] := by
  have h := (embedded_and_standalone_report [("metrics/mAP", (1 : ℚ)/2)] [4]
    2 ["box"] (by decide) (by decide) false [] (fun _ => none) "runs"
    [("metrics/mAP", (1 : ℚ)/2)] rfl).1
  rw [h]
  simp [label_loss_items]
  norm_num

/-- C5: in the standalone report phase, the prediction records are written
to `<save_dir>/predictions.json` exactly when JSON export was requested and
the pending-prediction list is non-empty, and `eval_json` is invoked exactly
when that write occurs. -/
theorem json_export_iff (sj : Bool) (jd : List String)
    (ej : Stats → Option Stats) (sd : String) (stats : Stats) :
    (RepEv.writeJson (sd ++ "/predictions.json") ∈
        (standaloneReport sj jd ej sd stats).1 ↔ (sj = true ∧ jd ≠ []))
    ∧ (RepEv.evalJsonCall ∈ (standaloneReport sj jd ej sd stats).1 ↔
        RepEv.writeJson (sd ++ "/predictions.json") ∈
          (standaloneReport sj jd ej sd stats).1) := by
  cases sj <;> cases jd <;> simp [standaloneReport]

/-- C6: the base-class `eval_json` hook is not a pass-through — its body is
`pass`, so it returns `None` rather than the stats map passed in, and the
standalone report after a JSON export therefore yields `None` instead of the
stats map. -/
theorem eval_json_default_not_passthrough :
    eval_json_default [("metrics/mAP", (1 : ℚ)/2)] = none
    ∧ (standaloneReport true ["pred0"] eval_json_default "runs/val"
        [("metrics/mAP", (1 : ℚ)/2)]).2 ≠ some [("metrics/mAP", (1 : ℚ)/2)] := by
  exact ⟨rfl, by simp [standaloneReport, eval_json_default]⟩

/-- C7: with a positive sample count and non-negative stage totals, the
speed profile divides each stage's accumulated elapsed time by the sample
count, scaled to milliseconds per sample, and every entry is
non-negative. -/
theorem speed_profile (dt : List ℚ) (n : Nat) (hn : 0 < n)
    (hdt : ∀ t ∈ dt, 0 ≤ t) :
    computeSpeed dt n = Except.ok (dt.map (fun t => t / (n : ℚ) * 1000))
    ∧ ∀ s ∈ dt.map (fun t => t / (n : ℚ) * 1000), 0 ≤ s := by
  constructor
  · have hz : n ≠ 0 := Nat.pos_iff_ne_zero.mp hn
    simp [computeSpeed, hz]
  · intro s hs
    simp only [List.mem_map] at hs
    obtain ⟨t, ht, rfl⟩ := hs
    have h1 : (0 : ℚ) ≤ t / (n : ℚ) :=
      div_nonneg (hdt t ht) (by positivity)
    exact mul_nonneg h1 (by norm_num)

/-- C7 witness: stage totals of 10ms, 40ms, 0ms and 5ms (in seconds) over
100 samples give the speed profile 0.1, 0.4, 0.0 and 0.05 ms per sample. -/
theorem speed_profile_witness :
    (0 < 100)
    ∧ computeSpeed [(1 : ℚ)/100, 1/25, 0, 1/200] 100 =
        Except.ok [1/10, 2/5, 0, 1/20] := by
  refine ⟨by decide, ?_⟩
  rw [(speed_profile [(1 : ℚ)/100, 1/25, 0, 1/200] 100 (by decide)
    (by intro t ht
        simp only [List.mem_cons, List.not_mem_nil, or_false] at ht
        rcases ht with rfl | rfl | rfl | rfl <;> norm_num)).1]
  norm_num [List.map_cons, List.map_nil]

/-- C8: evaluating the source's split-selection expression on a descriptor
whose validation split is absent raises `AttributeError` (the `dict` has no
`set` method), while the spec-intended selection returns the test split;
when the validation split is present the source selects it as intended. -/
theorem val_split_fallback_raises :
    valSplitSource [("test", "images/test")] =
      Except.error "AttributeError: dict object has no attribute set"
    ∧ valSplit_spec [("test", "images/test")] = some "images/test"
    ∧ valSplitSource [("val", "images/val"), ("test", "images/test")] =
        Except.ok "images/val" := by
  refine ⟨rfl, rfl, rfl⟩

/-- Helper: stage events contribute no context entries. -/
theorem count_enter_map_stage (ns : List Nat) :
    ((ns.map GuardEv.stageEv).count GuardEv.enterCtx) = 0 := by
  induction ns with
  | nil => rfl
  | cons k t ih => simp [List.count_cons, ih]

/-- Helper: stage events contribute no context exits. -/
theorem count_exit_map_stage (ns : List Nat) :
    ((ns.map GuardEv.stageEv).count GuardEv.exitCtx) = 0 := by
  induction ns with
  | nil => rfl
  | cons k t ih => simp [List.count_cons, ih]

/-- Helper: stage events leave the context depth unchanged. -/
theorem sum_depthDelta_map_stage (ns : List Nat) :
    (((ns.map GuardEv.stageEv).map depthDelta).sum) = 0 := by
  induction ns with
  | nil => rfl
  | cons k t ih =>
    simp only [List.map_cons, List.sum_cons]
    rw [ih]
    simp [depthDelta]

/-- Helper: whatever stage raises, the body trace is a list of stage
events. -/
theorem bodySteps_shape (nStages : Nat) (raiseAt : Option Nat) :
    ∃ ns : List Nat, (bodySteps nStages raiseAt).1 = ns.map GuardEv.stageEv := by
  cases raiseAt with
  | none => exact ⟨List.range nStages, rfl⟩
  | some k =>
    by_cases hk : k < nStages
    · exact ⟨List.range (k + 1), by simp [bodySteps, hk]⟩
    · exact ⟨List.range nStages, by simp [bodySteps, hk]⟩

/-- C9: for every run of the scoped inference context, whether the body
completes or raises at any stage — including between inference and
postprocess — the context is entered exactly once, released exactly once,
the release is the last event, and the net change to the
gradient-suspension depth is zero (no lingering gradient-tracking state). -/
theorem inference_context_symmetric (nStages : Nat) (raiseAt : Option Nat) :
    ((scopedInferenceRun nStages raiseAt).1.count GuardEv.enterCtx = 1)
    ∧ ((scopedInferenceRun nStages raiseAt).1.count GuardEv.exitCtx = 1)
    ∧ ((scopedInferenceRun nStages raiseAt).1.getLast? =
        some GuardEv.exitCtx)
    ∧ (((scopedInferenceRun nStages raiseAt).1.map depthDelta).sum = 0) := by
  obtain ⟨ns, hns⟩ := bodySteps_shape nStages raiseAt
  have htr : (scopedInferenceRun nStages raiseAt).1 =
      GuardEv.enterCtx :: (ns.map GuardEv.stageEv ++ [GuardEv.exitCtx]) := by
    simp [scopedInferenceRun, hns]
  refine ⟨?_, ?_, ?_, ?_⟩
  · rw [htr]
    simp [List.count_cons, List.count_append, count_enter_map_stage]
  · rw [htr]
    simp [List.count_cons, List.count_append, count_exit_map_stage]
  · rw [htr, ← List.cons_append]
    exact List.getLast?_concat _
  · rw [htr]
    simp only [List.map_cons, List.map_append, List.map_nil, List.sum_cons,
      List.sum_append, List.sum_nil, sum_depthDelta_map_stage]
    simp [depthDelta]

/-- C10: a call whose dataloader yields no batches over a dataset of zero
samples never runs the batch-loop body, still invokes `get_stats`,
`check_stats` and `print_results` on the empty accumulator state, and then
aborts with a division error from the per-sample speed computation, never
returning a stats map. -/
theorem empty_dataset_division_error {B I P : Type} (h : Hooks B I P)
    (criterion : P → B → List ℚ) (training plots : Bool) (loader : Loader B)
    (loss0 dtTotals : List ℚ) (stats : Stats) (keys : List String)
    (save_json : Bool) (jdict : List String) (evalJson : Stats → Option Stats)
    (save_dir : String) (hb : loader.batches = [])
    (hn : loader.datasetLen = 0) :
    validatorCall h criterion training plots loader loss0 dtTotals stats keys
        save_json jdict evalJson save_dir =
      ([Ev.initMetricsEv, Ev.getStatsEv, Ev.checkStatsEv, Ev.printResultsEv],
        [], Except.error "ZeroDivisionError: float division by zero")
    ∧ ∀ r, (validatorCall h criterion training plots loader loss0 dtTotals
        stats keys save_json jdict evalJson save_dir).2.2 ≠ Except.ok r := by
  have hmain : validatorCall h criterion training plots loader loss0 dtTotals
      stats keys save_json jdict evalJson save_dir =
      ([Ev.initMetricsEv, Ev.getStatsEv, Ev.checkStatsEv, Ev.printResultsEv],
        [], Except.error "ZeroDivisionError: float division by zero") := by
    simp [validatorCall, runLoop, hb, hn, computeSpeed]
  refine ⟨hmain, fun r => ?_⟩
  rw [hmain]
  simp

/-- C10 witness: the call evaluated on a concrete empty loader with concrete
hooks aborts with the division error. -/
theorem empty_dataset_division_error_witness :
    (Loader.mk ([] : List Nat) 0).batches = []
    ∧ (validatorCall natHooks natCriterion false false (Loader.mk [] 0) []
        [0, 0, 0, 0] [] [] false [] (fun s => some s) "runs").2.2 =
      Except.error "ZeroDivisionError: float division by zero" := by
  refine ⟨rfl, ?_⟩
  rw [(empty_dataset_division_error natHooks natCriterion false false
    (Loader.mk [] 0) [] [0, 0, 0, 0] [] [] false [] (fun s => some s)
    "runs" rfl rfl).1]

end YoloValidator
